import Mathlib

/-!
Shallow embedding of `src/bot.py` (okx_auto_trading_bot): a webhook-driven
signal-to-position reconciler for a single OKX perpetual-futures symbol.

Modelling conventions:
* Python floats for prices/quantities are modelled as rationals (ℚ); the
  4-decimal formatting `float(f"{amount:.4f}")` is modelled as exact rounding
  to the nearest multiple of 1/10000.
* Every call the program makes to the ccxt exchange object
  (`fetch_positions`, `fetch_ticker`, `create_order`) is recorded as an event
  in a trace, in program order.  Functions return the trace of calls they
  made together with their value.
* The exchange's behaviour during one invocation is an `Env`: the response to
  the position query, the response to the ticker query, and whether order
  submissions succeed.  Note that `close_position`, `open_long` and
  `open_short` in the source wrap `create_order` in try/except blocks that
  catch every exception and only log it, so the order outcomes influence no
  return value and no subsequent call; the `closeOrderOk` / `openOrderOk`
  fields exist so that statements can quantify over those outcomes.
* A Python exception that propagates is modelled with `Except Unit`;
  `fetch_price` has no try/except in the source, so its failure propagates
  out of `calc_contract_size` and out of `handle_signal`.
-/

/-- A market order submitted via `exchange.create_order(symbol, "market",
side, amount, None, params)`; `reduceOnly` is the `params["reduceOnly"]`
flag. -/
structure Order where
  symbol : String
  otype : String
  side : String
  amount : ℚ
  reduceOnly : Bool
  deriving DecidableEq, Repr

/-- One call made to the ccxt exchange object. -/
inductive GCall where
  | fetchPositions (symbol : String)
  | fetchTicker (symbol : String)
  | createOrder (o : Order)
  deriving DecidableEq, Repr

/-- One entry of the list returned by `exchange.fetch_positions([symbol])`:
the fields the source reads.  `contracts` is `Option` because the source
guards with `p.get("contracts") or 0`. -/
structure PosEntry where
  symbol : String
  side : String
  contracts : Option ℚ
  deriving DecidableEq, Repr

/-- Exchange behaviour for one reconciliation: `positionsResult` is the
response of `fetch_positions` (`error` = the call raised), `tickerLast` the
`ticker["last"]` of `fetch_ticker` (`error` = the call raised), and the two
flags say whether the close / open `create_order` submissions succeed.  The
source catches and merely logs order failures, so the flags affect no
control flow. -/
structure Env where
  positionsResult : Except Unit (List PosEntry)
  tickerLast : Except Unit ℚ
  closeOrderOk : Bool
  openOrderOk : Bool

/-- Models Python `str.upper()` (the signals and sides handled by the bot
are ASCII). -/
def pyUpper (s : String) : String :=
  String.mk (s.data.map Char.toUpper)

/-- Models Python `str.strip()`: drop leading and trailing whitespace. -/
def pyStrip (s : String) : String :=
  String.mk
    (((s.data.dropWhile Char.isWhitespace).reverse.dropWhile
        Char.isWhitespace).reverse)

/-- The configured trading symbol (`SYMBOL = "ETH/USDT:USDT"`). -/
def SYMBOL : String := "ETH/USDT:USDT"

/-- The configured per-order notional (`POSITION_SIZE_USDT = 50`). -/
def POSITION_SIZE_USDT : ℚ := 50

/-- Embeds `fetch_price`: calls `exchange.fetch_ticker(symbol)` and returns
`ticker["last"]`.  There is no try/except in the source, so a query failure
propagates to the caller. -/
def fetch_price (env : Env) (symbol : String) : List GCall × Except Unit ℚ :=
  ([GCall.fetchTicker symbol], env.tickerLast)

/-- Rounding to 4 decimal places: models `float(f"{amount:.4f}")`. -/
def round4 (q : ℚ) : ℚ :=
  (round (q * 10000) : ℚ) / 10000

/-- Embeds `calc_contract_size`: fetches the price and returns
`usdt_size / price` rounded to 4 decimals; a price-query failure
propagates. -/
def calc_contract_size (env : Env) (symbol : String) (usdt_size : ℚ) :
    List GCall × Except Unit ℚ :=
  let r := fetch_price env symbol
  match r.2 with
  | Except.error e => (r.1, Except.error e)
  | Except.ok price => (r.1, Except.ok (round4 (usdt_size / price)))

/-- The loop body of `get_position`: skip entries of another symbol, take
the first entry with `contracts > 0` (its side uppercased), else fall
through to `("FLAT", 0)`. -/
def get_position_scan (symbol : String) : List PosEntry → String × ℚ
  | [] => ("FLAT", 0)
  | p :: rest =>
    if p.symbol ≠ symbol then get_position_scan symbol rest
    else
      let contracts := p.contracts.getD 0
      if contracts > 0 then (pyUpper p.side, contracts)
      else get_position_scan symbol rest

/-- Embeds `get_position`: queries `fetch_positions([symbol])`; on a raised
query error it catches, logs and returns `("FLAT", 0.0)`; otherwise scans
the entries. -/
def get_position (env : Env) (symbol : String) :
    List GCall × (String × ℚ) :=
  match env.positionsResult with
  | Except.error _ => ([GCall.fetchPositions symbol], ("FLAT", 0))
  | Except.ok positions =>
    ([GCall.fetchPositions symbol], get_position_scan symbol positions)

/-- Embeds `close_position`: no call when `size <= 0`; otherwise one
reduce-only market order in the flattening direction (sell for LONG, buy
for SHORT); an unknown side logs and returns without a call.  The
`create_order` is inside try/except, so its failure is logged and swallowed
and the returned trace is the calls made. -/
def close_position (symbol : String) (side : String) (size : ℚ) :
    List GCall :=
  if size ≤ 0 then []
  else if side = "LONG" then
    [GCall.createOrder ⟨symbol, "market", "sell", size, true⟩]
  else if side = "SHORT" then
    [GCall.createOrder ⟨symbol, "market", "buy", size, true⟩]
  else []

/-- Embeds `open_long`: one market buy with `reduceOnly=False`; failure is
caught and logged. -/
def open_long (symbol : String) (size : ℚ) : List GCall :=
  [GCall.createOrder ⟨symbol, "market", "buy", size, false⟩]

/-- Embeds `open_short`: one market sell with `reduceOnly=False`; failure
is caught and logged. -/
def open_short (symbol : String) (size : ℚ) : List GCall :=
  [GCall.createOrder ⟨symbol, "market", "sell", size, false⟩]

/-- Embeds `handle_signal`: normalizes the signal, queries the position,
computes the new size (the price-query failure propagating out as an
exception), then acts per the decision table.  Returns the trace of
exchange calls in program order and `ok` unless an exception escaped. -/
def handle_signal (env : Env) (signal0 : String) :
    List GCall × Except Unit Unit :=
  let signal := pyStrip (pyUpper signal0)
  let gp := get_position env SYMBOL
  let current_side := gp.2.1
  let current_size := gp.2.2
  let cc := calc_contract_size env SYMBOL POSITION_SIZE_USDT
  match cc.2 with
  | Except.error e => (gp.1 ++ cc.1, Except.error e)
  | Except.ok new_size =>
    if signal = "BUY" then
      if current_side = "LONG" then (gp.1 ++ cc.1, Except.ok ())
      else
        let tc :=
          if current_side = "SHORT" then
            close_position SYMBOL current_side current_size
          else []
        (gp.1 ++ cc.1 ++ tc ++ open_long SYMBOL new_size, Except.ok ())
    else if signal = "SELL" then
      if current_side = "SHORT" then (gp.1 ++ cc.1, Except.ok ())
      else
        let tc :=
          if current_side = "LONG" then
            close_position SYMBOL current_side current_size
          else []
        (gp.1 ++ cc.1 ++ tc ++ open_short SYMBOL new_size, Except.ok ())
    else (gp.1 ++ cc.1, Except.ok ())

/-- The parsed JSON body of a webhook request: the two fields the source
reads, each possibly absent. -/
structure Request where
  secret : Option String
  signal : Option String
  deriving DecidableEq, Repr

/-- The HTTP response of the webhook endpoint.  `err500` stands for the
uncaught exception escaping `handle_signal` (Flask turns it into a 500). -/
inductive WebhookResp where
  | ok (received_signal : String)
  | err403
  | err400
  | err500
  deriving DecidableEq, Repr

/-- The part of `webhook` after the secret check: reject a missing signal
with 400, otherwise invoke `handle_signal` and echo the raw signal. -/
def webhookBody (env : Env) (data : Request) :
    List GCall × WebhookResp :=
  match data.signal with
  | none => ([], WebhookResp.err400)
  | some signal =>
    let hs := handle_signal env signal
    match hs.2 with
    | Except.error _ => (hs.1, WebhookResp.err500)
    | Except.ok _ => (hs.1, WebhookResp.ok signal)

/-- Python truthiness of the `WEBHOOK_SECRET` configuration value: falsy
when unset (`none`) or the empty string. -/
def secretTruthy : Option String → Bool
  | none => false
  | some s => s != ""

/-- Embeds the `webhook` endpoint.  `webhookSecret` is the configured
`WEBHOOK_SECRET` (`none` = unset); the guard `if WEBHOOK_SECRET:` is falsy
when it is unset or the empty string (see `secretTruthy`), in which case
the secret comparison is skipped entirely. -/
def webhook (webhookSecret : Option String) (env : Env) (data : Request) :
    List GCall × WebhookResp :=
  if secretTruthy webhookSecret then
    if data.secret ≠ webhookSecret then ([], WebhookResp.err403)
    else webhookBody env data
  else webhookBody env data

/-- The order submissions contained in a call trace. -/
def ordersOf (t : List GCall) : List Order :=
  t.filterMap (fun c =>
    match c with
    | GCall.createOrder o => some o
    | _ => none)

/-!
Multi-invocation model, for the temporal property about sequences of
signals.  The exchange's true net position is a signed rational (positive =
long contracts, negative = short).  Each step supplies the inbound signal,
the current mark price, and whether this invocation's position query fails
(the fail-flat path of `get_position`).  Queries that succeed report the
true position; submitted orders execute with net-position market-order
semantics, reduce-only orders clamped at flat.
-/

/-- Inputs of one webhook invocation in a run: the signal, the price the
ticker reports, and whether `fetch_positions` raises this time. -/
structure StepIn where
  signal : String
  price : ℚ
  queryFails : Bool

/-- The `fetch_positions` entries a truthful exchange returns for a net
position: one `long` or `short` entry, or none when flat. -/
def posEntries (pos : ℚ) : List PosEntry :=
  if 0 < pos then [⟨SYMBOL, "long", some pos⟩]
  else if pos < 0 then [⟨SYMBOL, "short", some (-pos)⟩]
  else []

/-- The `Env` one invocation sees, given the exchange's true net position
and the step inputs. -/
def mkEnv (pos : ℚ) (s : StepIn) : Env :=
  ⟨if s.queryFails then Except.error () else Except.ok (posEntries pos),
   Except.ok s.price, true, true⟩

/-- Effect of one market order on the net position: a plain order moves the
position by its amount; a reduce-only order only shrinks the exposure it
reduces, clamped at flat. -/
def applyOrder (pos : ℚ) (o : Order) : ℚ :=
  if o.reduceOnly then
    if o.side = "sell" then
      if 0 < pos then max (pos - o.amount) 0 else pos
    else if o.side = "buy" then
      if pos < 0 then min (pos + o.amount) 0 else pos
    else pos
  else
    if o.side = "buy" then pos + o.amount
    else if o.side = "sell" then pos - o.amount
    else pos

/-- One invocation of `handle_signal` in a run: the orders it submits and
the resulting exchange position. -/
def runStep (pos : ℚ) (s : StepIn) : ℚ × List Order :=
  let os := ordersOf (handle_signal (mkEnv pos s) s.signal).1
  (os.foldl applyOrder pos, os)

/-- All orders submitted over a sequence of invocations, starting from the
given exchange position. -/
def runTrace (pos : ℚ) : List StepIn → List Order
  | [] => []
  | s :: rest => (runStep pos s).2 ++ runTrace (runStep pos s).1 rest

/-- The direction whose position an order of side `d` flattens when
reduce-only (a reduce-only sell closes a position opened by buys, and
conversely). -/
def flipDir (d : String) : String :=
  if d = "buy" then "sell" else if d = "sell" then "buy" else d

/-- Automaton for the no-duplicate-entry property.  The state remembers
the direction of the last opening order not yet followed by the matching
reduce-only close; a second opening order in that direction before such a
close is the violation. -/
def scanOk : Option String → List Order → Bool
  | _, [] => true
  | st, o :: rest =>
    if o.reduceOnly then
      scanOk (if st = some (flipDir o.side) then none else st) rest
    else
      match st with
      | some d => if o.side = d then false else scanOk (some o.side) rest
      | none => scanOk (some o.side) rest

/-- Concrete environment: a LONG position of 1 contract, price 2000, all
orders succeed. -/
def envLongOne : Env :=
  ⟨Except.ok [⟨SYMBOL, "long", some 1⟩], Except.ok 2000, true, true⟩

/-- Concrete environment: a SHORT position of 2 contracts, price 2000, all
orders succeed. -/
def envShortTwo : Env :=
  ⟨Except.ok [⟨SYMBOL, "short", some 2⟩], Except.ok 2000, true, true⟩

/-- Concrete environment: flat (no entries), price 2000. -/
def envFlat : Env :=
  ⟨Except.ok [], Except.ok 2000, true, true⟩

/-- Concrete environment: the position query raises, price 2000. -/
def envPosFail : Env :=
  ⟨Except.error (), Except.ok 2000, true, true⟩

/-- Concrete environment: flat, and the ticker query raises. -/
def envPriceFail : Env :=
  ⟨Except.ok [], Except.error (), true, true⟩

/-- Concrete environment: a LONG position of 1 contract, price 2000, and
the close order submission fails (the exchange rejects it). -/
def envCloseFail : Env :=
  ⟨Except.ok [⟨SYMBOL, "long", some 1⟩], Except.ok 2000, false, true⟩

/-- The position query always contributes exactly one `fetch_positions`
call, whether or not it raises. -/
lemma get_position_fst (env : Env) (symbol : String) :
    (get_position env symbol).1 = [GCall.fetchPositions symbol] := by
  cases h : env.positionsResult <;> simp [get_position, h]

/-- The sizing step always contributes exactly one `fetch_ticker` call. -/
lemma calc_contract_size_fst (env : Env) (symbol : String) (u : ℚ) :
    (calc_contract_size env symbol u).1 = [GCall.fetchTicker symbol] := by
  cases h : env.tickerLast <;> simp [calc_contract_size, fetch_price, h]

/-- Value of the sizing step when the ticker query succeeds. -/
lemma calc_contract_size_ok (env : Env) (symbol : String) (u p : ℚ)
    (htick : env.tickerLast = Except.ok p) :
    (calc_contract_size env symbol u).2 = Except.ok (round4 (u / p)) := by
  simp [calc_contract_size, fetch_price, htick]

/-- When the ticker query raises, `handle_signal` makes both reads, no
order, and re-raises, whatever the signal. -/
lemma handle_signal_price_error (env : Env) (sig : String)
    (htick : env.tickerLast = Except.error ()) :
    handle_signal env sig =
      ([GCall.fetchPositions SYMBOL, GCall.fetchTicker SYMBOL],
       Except.error ()) := by
  simp [handle_signal, calc_contract_size, fetch_price, htick,
    get_position_fst]

/-- Aligned BUY: a held LONG and a normalized BUY yield the two reads and
nothing else (whatever the ticker query did). -/
lemma handle_signal_aligned_buy (env : Env) (sig : String)
    (hsig : pyStrip (pyUpper sig) = "BUY")
    (hside : (get_position env SYMBOL).2.1 = "LONG") :
    (handle_signal env sig).1 =
      [GCall.fetchPositions SYMBOL, GCall.fetchTicker SYMBOL] := by
  cases htick : env.tickerLast with
  | error e =>
    cases e
    simp [handle_signal_price_error env sig htick]
  | ok p =>
    simp [handle_signal, hsig, hside, get_position_fst,
      calc_contract_size_fst, calc_contract_size_ok env SYMBOL _ p htick]

/-- Aligned SELL: a held SHORT and a normalized SELL yield the two reads
and nothing else. -/
lemma handle_signal_aligned_sell (env : Env) (sig : String)
    (hsig : pyStrip (pyUpper sig) = "SELL")
    (hside : (get_position env SYMBOL).2.1 = "SHORT") :
    (handle_signal env sig).1 =
      [GCall.fetchPositions SYMBOL, GCall.fetchTicker SYMBOL] := by
  cases htick : env.tickerLast with
  | error e =>
    cases e
    simp [handle_signal_price_error env sig htick]
  | ok p =>
    simp [handle_signal, hsig, hside, get_position_fst,
      calc_contract_size_fst, calc_contract_size_ok env SYMBOL _ p htick]

/-- Flip from LONG: close first (reduce-only sell of the whole held size),
then open short with the freshly computed quantity. -/
lemma handle_signal_flip_long (env : Env) (sig : String) (S p : ℚ)
    (hsig : pyStrip (pyUpper sig) = "SELL")
    (hpos : (get_position env SYMBOL).2 = ("LONG", S)) (hS : 0 < S)
    (htick : env.tickerLast = Except.ok p) :
    handle_signal env sig =
      ([GCall.fetchPositions SYMBOL, GCall.fetchTicker SYMBOL,
        GCall.createOrder ⟨SYMBOL, "market", "sell", S, true⟩,
        GCall.createOrder
          ⟨SYMBOL, "market", "sell", round4 (POSITION_SIZE_USDT / p), false⟩],
       Except.ok ()) := by
  have hns : ¬ S ≤ 0 := not_le.mpr hS
  simp [handle_signal, hsig, hpos, get_position_fst, close_position,
    open_short, hns, calc_contract_size_fst,
    calc_contract_size_ok env SYMBOL _ p htick]

/-- Flip from SHORT: close first (reduce-only buy of the whole held size),
then open long with the freshly computed quantity. -/
lemma handle_signal_flip_short (env : Env) (sig : String) (S p : ℚ)
    (hsig : pyStrip (pyUpper sig) = "BUY")
    (hpos : (get_position env SYMBOL).2 = ("SHORT", S)) (hS : 0 < S)
    (htick : env.tickerLast = Except.ok p) :
    handle_signal env sig =
      ([GCall.fetchPositions SYMBOL, GCall.fetchTicker SYMBOL,
        GCall.createOrder ⟨SYMBOL, "market", "buy", S, true⟩,
        GCall.createOrder
          ⟨SYMBOL, "market", "buy", round4 (POSITION_SIZE_USDT / p), false⟩],
       Except.ok ()) := by
  have hns : ¬ S ≤ 0 := not_le.mpr hS
  simp [handle_signal, hsig, hpos, get_position_fst, close_position,
    open_long, hns, calc_contract_size_fst,
    calc_contract_size_ok env SYMBOL _ p htick]

/-- Entry from flat on BUY: one plain market buy, no close. -/
lemma handle_signal_flat_buy (env : Env) (sig : String) (p : ℚ)
    (hsig : pyStrip (pyUpper sig) = "BUY")
    (hside : (get_position env SYMBOL).2.1 = "FLAT")
    (htick : env.tickerLast = Except.ok p) :
    handle_signal env sig =
      ([GCall.fetchPositions SYMBOL, GCall.fetchTicker SYMBOL,
        GCall.createOrder
          ⟨SYMBOL, "market", "buy", round4 (POSITION_SIZE_USDT / p), false⟩],
       Except.ok ()) := by
  simp [handle_signal, hsig, hside, get_position_fst, open_long,
    calc_contract_size_fst, calc_contract_size_ok env SYMBOL _ p htick]

/-- Entry from flat on SELL: one plain market sell, no close. -/
lemma handle_signal_flat_sell (env : Env) (sig : String) (p : ℚ)
    (hsig : pyStrip (pyUpper sig) = "SELL")
    (hside : (get_position env SYMBOL).2.1 = "FLAT")
    (htick : env.tickerLast = Except.ok p) :
    handle_signal env sig =
      ([GCall.fetchPositions SYMBOL, GCall.fetchTicker SYMBOL,
        GCall.createOrder
          ⟨SYMBOL, "market", "sell", round4 (POSITION_SIZE_USDT / p), false⟩],
       Except.ok ()) := by
  simp [handle_signal, hsig, hside, get_position_fst, open_short,
    calc_contract_size_fst, calc_contract_size_ok env SYMBOL _ p htick]

/-- Unrecognized signal with a successful ticker query: both reads happen,
no order, and the function returns normally (only a warning is logged). -/
lemma handle_signal_unrecognized (env : Env) (sig : String) (p : ℚ)
    (h1 : pyStrip (pyUpper sig) ≠ "BUY")
    (h2 : pyStrip (pyUpper sig) ≠ "SELL")
    (htick : env.tickerLast = Except.ok p) :
    handle_signal env sig =
      ([GCall.fetchPositions SYMBOL, GCall.fetchTicker SYMBOL],
       Except.ok ()) := by
  simp [handle_signal, h1, h2, get_position_fst,
    calc_contract_size_fst, calc_contract_size_ok env SYMBOL _ p htick]

/-- A truthful position query reports a positive net position as LONG with
its size. -/
lemma get_position_mkEnv_long (pos : ℚ) (s : StepIn)
    (hq : s.queryFails = false) (h : 0 < pos) :
    (get_position (mkEnv pos s) SYMBOL).2 = ("LONG", pos) := by
  have hup : pyUpper "long" = "LONG" := by decide
  simp [get_position, mkEnv, hq, posEntries, h, get_position_scan, hup]

/-- A truthful position query reports a negative net position as SHORT
with its absolute size. -/
lemma get_position_mkEnv_short (pos : ℚ) (s : StepIn)
    (hq : s.queryFails = false) (h : pos < 0) :
    (get_position (mkEnv pos s) SYMBOL).2 = ("SHORT", -pos) := by
  have hup : pyUpper "short" = "SHORT" := by decide
  have hn : ¬ 0 < pos := not_lt.mpr h.le
  have hpn : 0 < -pos := neg_pos.mpr h
  simp [get_position, mkEnv, hq, posEntries, hn, h, get_position_scan, hup, hpn]

/-- A truthful position query reports a zero net position as FLAT. -/
lemma get_position_mkEnv_flat (s : StepIn) (hq : s.queryFails = false) :
    (get_position (mkEnv 0 s) SYMBOL).2 = ("FLAT", 0) := by
  simp [get_position, mkEnv, hq, posEntries, get_position_scan]

/-- A failed position query reports FLAT whatever the true position. -/
lemma get_position_mkEnv_fail (pos : ℚ) (s : StepIn)
    (hq : s.queryFails = true) :
    (get_position (mkEnv pos s) SYMBOL).2 = ("FLAT", 0) := by
  simp [get_position, mkEnv, hq]

/-- Aligned BUY step: nothing is submitted and the position is unchanged. -/
lemma runStep_aligned_buy (pos : ℚ) (s : StepIn) (h : 0 < pos)
    (hq : s.queryFails = false)
    (hsig : pyStrip (pyUpper s.signal) = "BUY") :
    runStep pos s = (pos, []) := by
  have hside : (get_position (mkEnv pos s) SYMBOL).2.1 = "LONG" := by
    rw [get_position_mkEnv_long pos s hq h]
  rw [runStep, handle_signal_aligned_buy (mkEnv pos s) s.signal hsig hside]
  simp [ordersOf]

/-- Aligned SELL step: nothing is submitted and the position is
unchanged. -/
lemma runStep_aligned_sell (pos : ℚ) (s : StepIn) (h : pos < 0)
    (hq : s.queryFails = false)
    (hsig : pyStrip (pyUpper s.signal) = "SELL") :
    runStep pos s = (pos, []) := by
  have hside : (get_position (mkEnv pos s) SYMBOL).2.1 = "SHORT" := by
    rw [get_position_mkEnv_short pos s hq h]
  rw [runStep, handle_signal_aligned_sell (mkEnv pos s) s.signal hsig hside]
  simp [ordersOf]

/-- Unrecognized-signal step: nothing is submitted and the position is
unchanged. -/
lemma runStep_unrecognized (pos : ℚ) (s : StepIn)
    (h1 : pyStrip (pyUpper s.signal) ≠ "BUY")
    (h2 : pyStrip (pyUpper s.signal) ≠ "SELL") :
    runStep pos s = (pos, []) := by
  have htick : (mkEnv pos s).tickerLast = Except.ok s.price := rfl
  rw [runStep, handle_signal_unrecognized (mkEnv pos s) s.signal s.price h1 h2 htick]
  simp [ordersOf]

/-- Flip step from LONG: the whole position is closed reduce-only, a short
of the computed quantity is opened, and the position becomes that short. -/
lemma runStep_flip_long (pos : ℚ) (s : StepIn) (h : 0 < pos)
    (hq : s.queryFails = false)
    (hsig : pyStrip (pyUpper s.signal) = "SELL") :
    runStep pos s = (-(round4 (POSITION_SIZE_USDT / s.price)),
      [⟨SYMBOL, "market", "sell", pos, true⟩,
       ⟨SYMBOL, "market", "sell", round4 (POSITION_SIZE_USDT / s.price),
        false⟩]) := by
  have hpos := get_position_mkEnv_long pos s hq h
  have htick : (mkEnv pos s).tickerLast = Except.ok s.price := rfl
  rw [runStep,
    handle_signal_flip_long (mkEnv pos s) s.signal pos s.price hsig hpos h htick]
  simp [ordersOf, applyOrder, h]

/-- Flip step from SHORT: the whole position is closed reduce-only, a long
of the computed quantity is opened, and the position becomes that long. -/
lemma runStep_flip_short (pos : ℚ) (s : StepIn) (h : pos < 0)
    (hq : s.queryFails = false)
    (hsig : pyStrip (pyUpper s.signal) = "BUY") :
    runStep pos s = (round4 (POSITION_SIZE_USDT / s.price),
      [⟨SYMBOL, "market", "buy", -pos, true⟩,
       ⟨SYMBOL, "market", "buy", round4 (POSITION_SIZE_USDT / s.price),
        false⟩]) := by
  have hpos := get_position_mkEnv_short pos s hq h
  have hS : (0:ℚ) < -pos := neg_pos.mpr h
  have htick : (mkEnv pos s).tickerLast = Except.ok s.price := rfl
  rw [runStep,
    handle_signal_flip_short (mkEnv pos s) s.signal (-pos) s.price hsig hpos hS htick]
  simp [ordersOf, applyOrder, h, not_lt.mpr h.le]

/-- Entry step from flat on BUY. -/
lemma runStep_flat_buy (s : StepIn) (hq : s.queryFails = false)
    (hsig : pyStrip (pyUpper s.signal) = "BUY") :
    runStep 0 s = (round4 (POSITION_SIZE_USDT / s.price),
      [⟨SYMBOL, "market", "buy", round4 (POSITION_SIZE_USDT / s.price),
        false⟩]) := by
  have hside : (get_position (mkEnv 0 s) SYMBOL).2.1 = "FLAT" := by
    rw [get_position_mkEnv_flat s hq]
  have htick : (mkEnv 0 s).tickerLast = Except.ok s.price := rfl
  rw [runStep, handle_signal_flat_buy (mkEnv 0 s) s.signal s.price hsig hside htick]
  simp [ordersOf, applyOrder]

/-- Entry step from flat on SELL. -/
lemma runStep_flat_sell (s : StepIn) (hq : s.queryFails = false)
    (hsig : pyStrip (pyUpper s.signal) = "SELL") :
    runStep 0 s = (-(round4 (POSITION_SIZE_USDT / s.price)),
      [⟨SYMBOL, "market", "sell", round4 (POSITION_SIZE_USDT / s.price),
        false⟩]) := by
  have hside : (get_position (mkEnv 0 s) SYMBOL).2.1 = "FLAT" := by
    rw [get_position_mkEnv_flat s hq]
  have htick : (mkEnv 0 s).tickerLast = Except.ok s.price := rfl
  rw [runStep, handle_signal_flat_sell (mkEnv 0 s) s.signal s.price hsig hside htick]
  simp [ordersOf, applyOrder]

/-- Core induction for the no-duplicate-entry property: in a run whose
position queries all succeed and whose computed quantities are positive,
the scan automaton accepts, provided its state agrees with the sign of the
current position. -/
lemma runTrace_scanOk (steps : List StepIn) : ∀ (pos : ℚ) (st : Option String),
    (0 < pos → st = some "buy") → (pos < 0 → st = some "sell") →
    (pos = 0 → st = none) →
    (∀ s ∈ steps, s.queryFails = false ∧
      0 < round4 (POSITION_SIZE_USDT / s.price)) →
    scanOk st (runTrace pos steps) = true := by
  induction steps with
  | nil =>
    intro pos st _ _ _ _
    simp [runTrace, scanOk]
  | cons s rest ih =>
    intro pos st h1 h2 h3 hok
    obtain ⟨hq, hqty⟩ := hok s (List.mem_cons_self s rest)
    have hok' : ∀ x ∈ rest, x.queryFails = false ∧
        0 < round4 (POSITION_SIZE_USDT / x.price) :=
      fun x hx => hok x (List.mem_cons_of_mem s hx)
    have hqne : round4 (POSITION_SIZE_USDT / s.price) ≠ 0 := ne_of_gt hqty
    have hqnn : ¬ round4 (POSITION_SIZE_USDT / s.price) < 0 :=
      not_lt.mpr hqty.le
    rcases lt_trichotomy pos 0 with hneg | hzero | hpos
    · by_cases hb : pyStrip (pyUpper s.signal) = "BUY"
      · rw [runTrace, runStep_flip_short pos s hneg hq hb, h2 hneg]
        simp only [List.cons_append, List.nil_append]
        simp [scanOk, flipDir]
        exact ih (round4 (POSITION_SIZE_USDT / s.price)) (some "buy")
          (fun _ => rfl) (fun hc => absurd hc hqnn)
          (fun hc => absurd hc hqne) hok'
      · by_cases hs : pyStrip (pyUpper s.signal) = "SELL"
        · rw [runTrace, runStep_aligned_sell pos s hneg hq hs]
          simp only [List.nil_append]
          exact ih pos st h1 h2 h3 hok'
        · rw [runTrace, runStep_unrecognized pos s hb hs]
          simp only [List.nil_append]
          exact ih pos st h1 h2 h3 hok'
    · subst hzero
      by_cases hb : pyStrip (pyUpper s.signal) = "BUY"
      · rw [runTrace, runStep_flat_buy s hq hb, h3 rfl]
        simp only [List.cons_append, List.nil_append]
        simp [scanOk]
        exact ih (round4 (POSITION_SIZE_USDT / s.price)) (some "buy")
          (fun _ => rfl) (fun hc => absurd hc hqnn)
          (fun hc => absurd hc hqne) hok'
      · by_cases hs : pyStrip (pyUpper s.signal) = "SELL"
        · rw [runTrace, runStep_flat_sell s hq hs, h3 rfl]
          simp only [List.cons_append, List.nil_append]
          simp [scanOk]
          exact ih (-(round4 (POSITION_SIZE_USDT / s.price))) (some "sell")
            (fun hc => absurd hqty (not_lt.mpr (by linarith)))
            (fun _ => rfl)
            (fun hc => absurd (neg_eq_zero.mp hc) hqne) hok'
        · rw [runTrace, runStep_unrecognized 0 s hb hs]
          simp only [List.nil_append]
          exact ih 0 st h1 h2 h3 hok'
    · by_cases hb : pyStrip (pyUpper s.signal) = "BUY"
      · rw [runTrace, runStep_aligned_buy pos s hpos hq hb]
        simp only [List.nil_append]
        exact ih pos st h1 h2 h3 hok'
      · by_cases hs : pyStrip (pyUpper s.signal) = "SELL"
        · rw [runTrace, runStep_flip_long pos s hpos hq hs, h1 hpos]
          simp only [List.cons_append, List.nil_append]
          simp [scanOk, flipDir]
          exact ih (-(round4 (POSITION_SIZE_USDT / s.price))) (some "sell")
            (fun hc => absurd hqty (not_lt.mpr (by linarith)))
            (fun _ => rfl)
            (fun hc => absurd (neg_eq_zero.mp hc) hqne) hok'
        · rw [runTrace, runStep_unrecognized pos s hb hs]
          simp only [List.nil_append]
          exact ih pos st h1 h2 h3 hok'

/-- Invariant of the loop of `get_position`, assuming the exchange reports
sides as ccxt does (each entry's side is `long` or `short`). -/
lemma get_position_scan_invariant (symbol : String) (l : List PosEntry)
    (hside : ∀ e ∈ l, e.side = "long" ∨ e.side = "short") :
    ((get_position_scan symbol l).1 = "LONG" ∨
      (get_position_scan symbol l).1 = "SHORT" ∨
      (get_position_scan symbol l).1 = "FLAT") ∧
    0 ≤ (get_position_scan symbol l).2 ∧
    ((get_position_scan symbol l).2 = 0 ↔
      (get_position_scan symbol l).1 = "FLAT") := by
  induction l with
  | nil => simp [get_position_scan]
  | cons p rest ih =>
    have hrest : ∀ e ∈ rest, e.side = "long" ∨ e.side = "short" :=
      fun e he => hside e (List.mem_cons_of_mem p he)
    have hp := hside p (List.mem_cons_self p rest)
    by_cases hsym : p.symbol ≠ symbol
    · simpa [get_position_scan, hsym] using ih hrest
    · by_cases hc : p.contracts.getD 0 > 0
      · have hne : p.contracts.getD 0 ≠ 0 := ne_of_gt hc
        rcases hp with hl | hs
        · have hup : pyUpper "long" = "LONG" := by decide
          simp [get_position_scan, hsym, hc, hl, hup, hne, hc.le]
        · have hup : pyUpper "short" = "SHORT" := by decide
          simp [get_position_scan, hsym, hc, hs, hup, hne, hc.le]
      · simpa [get_position_scan, hsym, hc] using ih hrest

/-- The 4-decimal rounding is a multiple of one ten-thousandth and lands
within half of that step of the exact quotient. -/
lemma round4_near (q : ℚ) :
    round4 q * 10000 = (round (q * 10000) : ℚ) ∧
    |round4 q - q| ≤ 1 / 20000 := by
  constructor
  · rw [round4]
    ring
  · have hd : round4 q - q = ((round (q * 10000) : ℚ) - q * 10000) / 10000 := by
      rw [round4]
      ring
    have hb : |(round (q * 10000) : ℚ) - q * 10000| ≤ 1 / 2 := by
      rw [abs_sub_comm]
      exact abs_sub_round (q * 10000)
    rw [hd, abs_div]
    have h10 : |(10000 : ℚ)| = 10000 := by norm_num
    rw [h10]
    rw [div_le_div_iff₀ (by norm_num) (by norm_num)]
    nlinarith [hb]

/-- Repeated aligned BUY signals never submit an order while the long
position is held. -/
lemma runTrace_aligned_buy (steps : List StepIn) : ∀ (pos : ℚ), 0 < pos →
    (∀ s ∈ steps, s.queryFails = false ∧
      pyStrip (pyUpper s.signal) = "BUY") →
    runTrace pos steps = [] := by
  induction steps with
  | nil => intro pos _ _; simp [runTrace]
  | cons s rest ih =>
    intro pos hpos hok
    obtain ⟨hq, hsig⟩ := hok s (List.mem_cons_self s rest)
    rw [runTrace, runStep_aligned_buy pos s hpos hq hsig]
    simp only [List.nil_append]
    exact ih pos hpos (fun x hx => hok x (List.mem_cons_of_mem s hx))

/-- One more runStep case: a failed position query makes the reconciler
treat the position as flat, so a BUY opens a fresh long on top of whatever
is really held. -/
lemma runStep_queryfail_buy (pos : ℚ) (s : StepIn) (hq : s.queryFails = true)
    (hsig : pyStrip (pyUpper s.signal) = "BUY") :
    runStep pos s = (pos + round4 (POSITION_SIZE_USDT / s.price),
      [⟨SYMBOL, "market", "buy", round4 (POSITION_SIZE_USDT / s.price),
        false⟩]) := by
  have hside : (get_position (mkEnv pos s) SYMBOL).2.1 = "FLAT" := by
    rw [get_position_mkEnv_fail pos s hq]
  have htick : (mkEnv pos s).tickerLast = Except.ok s.price := rfl
  rw [runStep, handle_signal_flat_buy (mkEnv pos s) s.signal s.price hsig hside htick]
  simp [ordersOf, applyOrder]

/-- Claim C1: on a flip, `handle_signal` issues exactly two orders — first
a reduce-only market order in the flattening direction sized to the whole
held position, then a plain market order in the new direction sized to the
freshly computed quantity (never to the old position's size). -/
theorem flip_issues_close_then_open (env env2 : Env) (sig sig2 : String)
    (S S2 p p2 : ℚ)
    (hsig : pyStrip (pyUpper sig) = "SELL")
    (hpos : (get_position env SYMBOL).2 = ("LONG", S)) (hS : 0 < S)
    (htick : env.tickerLast = Except.ok p)
    (hsig2 : pyStrip (pyUpper sig2) = "BUY")
    (hpos2 : (get_position env2 SYMBOL).2 = ("SHORT", S2)) (hS2 : 0 < S2)
    (htick2 : env2.tickerLast = Except.ok p2) :
    ordersOf (handle_signal env sig).1 =
      [⟨SYMBOL, "market", "sell", S, true⟩,
       ⟨SYMBOL, "market", "sell", round4 (POSITION_SIZE_USDT / p), false⟩] ∧
    ordersOf (handle_signal env2 sig2).1 =
      [⟨SYMBOL, "market", "buy", S2, true⟩,
       ⟨SYMBOL, "market", "buy", round4 (POSITION_SIZE_USDT / p2), false⟩] := by
  constructor
  · rw [handle_signal_flip_long env sig S p hsig hpos hS htick]
    simp [ordersOf]
  · rw [handle_signal_flip_short env2 sig2 S2 p2 hsig2 hpos2 hS2 htick2]
    simp [ordersOf]

/-- Witness for C1 at a LONG of 1 and a SHORT of 2, price 2000. -/
theorem flip_issues_close_then_open_witness :
    ordersOf (handle_signal envLongOne "SELL").1 =
      [⟨SYMBOL, "market", "sell", 1, true⟩,
       ⟨SYMBOL, "market", "sell", 1/40, false⟩] ∧
    ordersOf (handle_signal envShortTwo "BUY").1 =
      [⟨SYMBOL, "market", "buy", 2, true⟩,
       ⟨SYMBOL, "market", "buy", 1/40, false⟩] := by
  have h := flip_issues_close_then_open envLongOne envShortTwo "SELL" "BUY"
    1 2 2000 2000
    (by decide)
    (by have hup : pyUpper "long" = "LONG" := by decide
        norm_num [get_position, envLongOne, get_position_scan, hup])
    (by norm_num) rfl
    (by decide)
    (by have hup : pyUpper "short" = "SHORT" := by decide
        norm_num [get_position, envShortTwo, get_position_scan, hup])
    (by norm_num) rfl
  have hr : round4 (POSITION_SIZE_USDT / 2000) = 1/40 := by
    norm_num [round4, POSITION_SIZE_USDT, round_eq]
  rw [hr] at h
  exact h

/-- Claim C2, counterexample: with a LONG of 1 held and the close-order
submission failing, the open order is still attempted (the trace contains
the non-reduce-only sell), and the caller sees a normal return — the
remaining sequence is not aborted. -/
theorem close_failure_counterexample :
    envCloseFail.closeOrderOk = false ∧
    (handle_signal envCloseFail "SELL").2 = Except.ok () ∧
    GCall.createOrder ⟨SYMBOL, "market", "sell", 1/40, false⟩ ∈
      (handle_signal envCloseFail "SELL").1 := by
  have h := handle_signal_flip_long envCloseFail "SELL" 1 2000
    (by decide)
    (by have hup : pyUpper "long" = "LONG" := by decide
        norm_num [get_position, envCloseFail, get_position_scan, hup])
    (by norm_num) rfl
  have hr : round4 (POSITION_SIZE_USDT / 2000) = 1/40 := by
    norm_num [round4, POSITION_SIZE_USDT, round_eq]
  rw [hr] at h
  refine ⟨rfl, ?_, ?_⟩
  · rw [h]
  · rw [h]
    simp

/-- Claim C2, amended: order-submission failures are caught and logged
inside the close helper, so a failed close neither crashes the caller nor
prevents the open — the same two orders are attempted whether or not the
close succeeds. -/
theorem close_failure_open_still_attempted (env : Env) (sig : String)
    (S p : ℚ)
    (hfail : env.closeOrderOk = false)
    (hsig : pyStrip (pyUpper sig) = "SELL")
    (hpos : (get_position env SYMBOL).2 = ("LONG", S)) (hS : 0 < S)
    (htick : env.tickerLast = Except.ok p) :
    (handle_signal env sig).2 = Except.ok () ∧
    ordersOf (handle_signal env sig).1 =
      [⟨SYMBOL, "market", "sell", S, true⟩,
       ⟨SYMBOL, "market", "sell", round4 (POSITION_SIZE_USDT / p), false⟩] := by
  rw [handle_signal_flip_long env sig S p hsig hpos hS htick]
  exact ⟨rfl, by simp [ordersOf]⟩

/-- Witness for the amended C2. -/
theorem close_failure_open_still_attempted_witness :
    (handle_signal envCloseFail "SELL").2 = Except.ok () ∧
    ordersOf (handle_signal envCloseFail "SELL").1 =
      [⟨SYMBOL, "market", "sell", 1, true⟩,
       ⟨SYMBOL, "market", "sell", 1/40, false⟩] := by
  have h := close_failure_open_still_attempted envCloseFail "SELL" 1 2000
    rfl
    (by decide)
    (by have hup : pyUpper "long" = "LONG" := by decide
        norm_num [get_position, envCloseFail, get_position_scan, hup])
    (by norm_num) rfl
  have hr : round4 (POSITION_SIZE_USDT / 2000) = 1/40 := by
    norm_num [round4, POSITION_SIZE_USDT, round_eq]
  rw [hr] at h
  exact h

/-- Claim C3, counterexample: the unrecognized signal "HOLD" still causes
both Gateway reads (position query and price fetch), and the webhook
answers with a success acknowledgement echoing "HOLD" — nothing is
reported to the caller. -/
theorem unrecognized_signal_counterexample :
    (handle_signal envFlat "HOLD").1 =
      [GCall.fetchPositions SYMBOL, GCall.fetchTicker SYMBOL] ∧
    (webhookBody envFlat ⟨none, some "HOLD"⟩).2 = WebhookResp.ok "HOLD" := by
  have h := handle_signal_unrecognized envFlat "HOLD" 2000
    (by decide) (by decide) rfl
  constructor
  · rw [h]
  · simp [webhookBody, h]

/-- Claim C3, amended: an input whose uppercased-and-trimmed form is
neither BUY nor SELL issues no order, but the position query and the price
fetch are still performed before the signal is inspected, and the
rejection is only logged — the webhook still acknowledges success to the
caller. -/
theorem unrecognized_signal_amended (env : Env) (sig : String) (p : ℚ)
    (h1 : pyStrip (pyUpper sig) ≠ "BUY")
    (h2 : pyStrip (pyUpper sig) ≠ "SELL")
    (htick : env.tickerLast = Except.ok p) :
    handle_signal env sig =
      ([GCall.fetchPositions SYMBOL, GCall.fetchTicker SYMBOL],
       Except.ok ()) ∧
    ordersOf (handle_signal env sig).1 = [] ∧
    (webhookBody env ⟨none, some sig⟩).2 = WebhookResp.ok sig := by
  have h := handle_signal_unrecognized env sig p h1 h2 htick
  refine ⟨h, ?_, ?_⟩
  · rw [h]
    simp [ordersOf]
  · simp [webhookBody, h]

/-- Witness for the amended C3 at signal "HOLD". -/
theorem unrecognized_signal_amended_witness :
    handle_signal envFlat "HOLD" =
      ([GCall.fetchPositions SYMBOL, GCall.fetchTicker SYMBOL],
       Except.ok ()) ∧
    ordersOf (handle_signal envFlat "HOLD").1 = [] ∧
    (webhookBody envFlat ⟨none, some "HOLD"⟩).2 = WebhookResp.ok "HOLD" :=
  unrecognized_signal_amended envFlat "HOLD" 2000 (by decide) (by decide) rfl

/-- Claim C4: when the incoming signal already matches the held side, the
invocation performs exactly the position read and the price read and
submits no order; and any run of repeated matching BUY signals over a held
long submits no order at all. -/
theorem aligned_signal_idempotent (env env2 : Env) (sig sig2 : String)
    (hsig : pyStrip (pyUpper sig) = "BUY")
    (hside : (get_position env SYMBOL).2.1 = "LONG")
    (hsig2 : pyStrip (pyUpper sig2) = "SELL")
    (hside2 : (get_position env2 SYMBOL).2.1 = "SHORT") :
    (handle_signal env sig).1 =
      [GCall.fetchPositions SYMBOL, GCall.fetchTicker SYMBOL] ∧
    ordersOf (handle_signal env sig).1 = [] ∧
    (handle_signal env2 sig2).1 =
      [GCall.fetchPositions SYMBOL, GCall.fetchTicker SYMBOL] ∧
    ordersOf (handle_signal env2 sig2).1 = [] ∧
    (∀ (pos : ℚ) (steps : List StepIn), 0 < pos →
      (∀ s ∈ steps, s.queryFails = false ∧
        pyStrip (pyUpper s.signal) = "BUY") →
      runTrace pos steps = []) := by
  have h := handle_signal_aligned_buy env sig hsig hside
  have h2 := handle_signal_aligned_sell env2 sig2 hsig2 hside2
  refine ⟨h, ?_, h2, ?_, ?_⟩
  · rw [h]
    simp [ordersOf]
  · rw [h2]
    simp [ordersOf]
  · intro pos steps hpos hsteps
    exact runTrace_aligned_buy steps pos hpos hsteps

/-- Witness for C4: LONG of 1 with BUY, SHORT of 2 with SELL, and two
repeated BUY steps over a long of 1. -/
theorem aligned_signal_idempotent_witness :
    (handle_signal envLongOne "BUY").1 =
      [GCall.fetchPositions SYMBOL, GCall.fetchTicker SYMBOL] ∧
    ordersOf (handle_signal envLongOne "BUY").1 = [] ∧
    (handle_signal envShortTwo "SELL").1 =
      [GCall.fetchPositions SYMBOL, GCall.fetchTicker SYMBOL] ∧
    ordersOf (handle_signal envShortTwo "SELL").1 = [] ∧
    runTrace 1 [⟨"BUY", 2000, false⟩, ⟨"BUY", 2500, false⟩] = [] := by
  have h := aligned_signal_idempotent envLongOne envShortTwo "BUY" "SELL"
    (by decide)
    (by have hup : pyUpper "long" = "LONG" := by decide
        norm_num [get_position, envLongOne, get_position_scan, hup])
    (by decide)
    (by have hup : pyUpper "short" = "SHORT" := by decide
        norm_num [get_position, envShortTwo, get_position_scan, hup])
  refine ⟨h.1, h.2.1, h.2.2.1, h.2.2.2.1, ?_⟩
  refine h.2.2.2.2 1 _ (by norm_num) ?_
  intro s hs
  simp at hs
  rcases hs with rfl | rfl <;> exact ⟨rfl, by decide⟩

/-- Claim C5: a failed position query is caught inside `get_position`,
which returns `("FLAT", 0)`; reconciliation then proceeds as if flat — a
BUY opens a fresh long with no close, instead of raising. -/
theorem position_query_fail_flat (env : Env) (symbol sig : String) (p : ℚ)
    (hfail : env.positionsResult = Except.error ())
    (htick : env.tickerLast = Except.ok p)
    (hsig : pyStrip (pyUpper sig) = "BUY") :
    get_position env symbol = ([GCall.fetchPositions symbol], ("FLAT", 0)) ∧
    handle_signal env sig =
      ([GCall.fetchPositions SYMBOL, GCall.fetchTicker SYMBOL,
        GCall.createOrder
          ⟨SYMBOL, "market", "buy", round4 (POSITION_SIZE_USDT / p), false⟩],
       Except.ok ()) := by
  refine ⟨by simp [get_position, hfail], ?_⟩
  exact handle_signal_flat_buy env sig p hsig (by simp [get_position, hfail]) htick

/-- Witness for C5 with a failing query at price 2000. -/
theorem position_query_fail_flat_witness :
    get_position envPosFail SYMBOL =
      ([GCall.fetchPositions SYMBOL], ("FLAT", 0)) ∧
    handle_signal envPosFail "BUY" =
      ([GCall.fetchPositions SYMBOL, GCall.fetchTicker SYMBOL,
        GCall.createOrder ⟨SYMBOL, "market", "buy", 1/40, false⟩],
       Except.ok ()) := by
  have h := position_query_fail_flat envPosFail SYMBOL "BUY" 2000
    rfl rfl (by decide)
  have hr : round4 (POSITION_SIZE_USDT / 2000) = 1/40 := by
    norm_num [round4, POSITION_SIZE_USDT, round_eq]
  rw [hr] at h
  exact h

/-- Claim C6, counterexample: a price-query failure escapes
`handle_signal` as an exception (the webhook layer turns it into a 500),
so the core does raise out of the reconciliation boundary. -/
theorem price_failure_counterexample :
    (handle_signal envPriceFail "BUY").2 = Except.error () ∧
    (webhook (some "s3cret") envPriceFail ⟨some "s3cret", some "BUY"⟩).2 =
      WebhookResp.err500 := by
  have h := handle_signal_price_error envPriceFail "BUY" rfl
  have ht : secretTruthy (some "s3cret") = true := by decide
  constructor
  · rw [h]
  · simp [webhook, ht, webhookBody, h]

/-- Claim C6, amended: a price-query failure aborts the whole
reconciliation with no order issued, but the failure propagates as an
uncaught exception out of `handle_signal` (surfaced by the HTTP layer as
an error response) rather than being converted to a degraded
acknowledgement at the reconciliation boundary. -/
theorem price_failure_aborts (env : Env) (sig : String)
    (htick : env.tickerLast = Except.error ()) :
    handle_signal env sig =
      ([GCall.fetchPositions SYMBOL, GCall.fetchTicker SYMBOL],
       Except.error ()) ∧
    ordersOf (handle_signal env sig).1 = [] ∧
    (webhookBody env ⟨none, some sig⟩).2 = WebhookResp.err500 := by
  have h := handle_signal_price_error env sig htick
  refine ⟨h, ?_, ?_⟩
  · rw [h]
    simp [ordersOf]
  · simp [webhookBody, h]

/-- Witness for the amended C6. -/
theorem price_failure_aborts_witness :
    handle_signal envPriceFail "BUY" =
      ([GCall.fetchPositions SYMBOL, GCall.fetchTicker SYMBOL],
       Except.error ()) ∧
    ordersOf (handle_signal envPriceFail "BUY").1 = [] ∧
    (webhookBody envPriceFail ⟨none, some "BUY"⟩).2 = WebhookResp.err500 :=
  price_failure_aborts envPriceFail "BUY" rfl

/-- Claim C7, counterexample: starting flat, a BUY opens a long; a second
BUY whose position query fails is reconciled as if flat, so a second
opening buy is submitted with no intervening close — a duplicate entry. -/
theorem duplicate_entry_counterexample :
    runTrace 0 [⟨"BUY", 2000, false⟩, ⟨"BUY", 2000, true⟩] =
      [⟨SYMBOL, "market", "buy", 1/40, false⟩,
       ⟨SYMBOL, "market", "buy", 1/40, false⟩] ∧
    scanOk none
      (runTrace 0 [⟨"BUY", 2000, false⟩, ⟨"BUY", 2000, true⟩]) = false := by
  have hr : round4 (POSITION_SIZE_USDT / 2000) = 1/40 := by
    norm_num [round4, POSITION_SIZE_USDT, round_eq]
  have h1 := runStep_flat_buy ⟨"BUY", 2000, false⟩ rfl (by decide)
  have h2 := runStep_queryfail_buy (1/40) ⟨"BUY", 2000, true⟩ rfl (by decide)
  rw [hr] at h1
  have hrun : runTrace 0 [⟨"BUY", 2000, false⟩, ⟨"BUY", 2000, true⟩] =
      [⟨SYMBOL, "market", "buy", 1/40, false⟩,
       ⟨SYMBOL, "market", "buy", 1/40, false⟩] := by
    rw [runTrace, h1]
    simp only []
    rw [runTrace, h2]
    rw [hr]
    simp [runTrace]
  refine ⟨hrun, ?_⟩
  rw [hrun]
  simp [scanOk]

/-- Claim C7, amended: over any sequence of signals in which every
position query succeeds (reporting the true position) and every computed
order quantity is positive, the run never submits two opening orders in
the same direction without the matching reduce-only close in between. -/
theorem no_duplicate_entry (steps : List StepIn)
    (hok : ∀ s ∈ steps, s.queryFails = false ∧
      0 < round4 (POSITION_SIZE_USDT / s.price)) :
    scanOk none (runTrace 0 steps) = true :=
  runTrace_scanOk steps 0 none
    (fun h => absurd h (lt_irrefl 0))
    (fun h => absurd h (lt_irrefl 0))
    (fun _ => rfl) hok

/-- Witness for the amended C7: a BUY then a SELL at price 2000 with
reliable queries. -/
theorem no_duplicate_entry_witness :
    (∀ s ∈ [(⟨"BUY", 2000, false⟩ : StepIn), ⟨"SELL", 2000, false⟩],
      s.queryFails = false ∧
      0 < round4 (POSITION_SIZE_USDT / s.price)) ∧
    scanOk none
      (runTrace 0 [⟨"BUY", 2000, false⟩, ⟨"SELL", 2000, false⟩]) = true := by
  have hq : (0:ℚ) < round4 (POSITION_SIZE_USDT / 2000) := by
    norm_num [round4, POSITION_SIZE_USDT, round_eq]
  have hh : ∀ s ∈ [(⟨"BUY", 2000, false⟩ : StepIn), ⟨"SELL", 2000, false⟩],
      s.queryFails = false ∧ 0 < round4 (POSITION_SIZE_USDT / s.price) := by
    intro s hs
    simp at hs
    rcases hs with rfl | rfl <;> exact ⟨rfl, hq⟩
  exact ⟨hh, no_duplicate_entry _ hh⟩

/-- Claim C8: the computed quantity is the notional divided by the price,
rounded to 4 decimal places — a multiple of 1/10000 within half a step of
the exact quotient. -/
theorem calc_contract_size_rounds (env : Env) (n p : ℚ) (hp : 0 < p)
    (htick : env.tickerLast = Except.ok p) :
    (calc_contract_size env SYMBOL n).2 = Except.ok (round4 (n / p)) ∧
    round4 (n / p) * 10000 = (round (n / p * 10000) : ℚ) ∧
    |round4 (n / p) - n / p| ≤ 1 / 20000 :=
  ⟨calc_contract_size_ok env SYMBOL n p htick,
   (round4_near (n / p)).1, (round4_near (n / p)).2⟩

/-- Witness for C8: 50 USDT at price 2000 gives exactly 0.0250. -/
theorem calc_contract_size_rounds_witness :
    (0:ℚ) < 2000 ∧
    (calc_contract_size envFlat SYMBOL 50).2 = Except.ok (25/1000) ∧
    |(25/1000 : ℚ) - 50 / 2000| ≤ 1 / 20000 := by
  have h := calc_contract_size_rounds envFlat 50 2000 (by norm_num) rfl
  have hr : round4 ((50:ℚ) / 2000) = 25/1000 := by
    norm_num [round4, round_eq]
  rw [hr] at h
  exact ⟨by norm_num, h.1, h.2.2⟩

/-- Claim C9: on every path — including the query-failure path — the pair
returned by `get_position` has side among LONG, SHORT, FLAT, non-negative
size, and size zero exactly when the side is FLAT (assuming the exchange
reports entry sides as ccxt's `long`/`short`). -/
theorem get_position_snapshot_invariant (env : Env) (symbol : String)
    (hside : ∀ l, env.positionsResult = Except.ok l →
      ∀ e ∈ l, e.side = "long" ∨ e.side = "short") :
    ((get_position env symbol).2.1 = "LONG" ∨
      (get_position env symbol).2.1 = "SHORT" ∨
      (get_position env symbol).2.1 = "FLAT") ∧
    0 ≤ (get_position env symbol).2.2 ∧
    ((get_position env symbol).2.2 = 0 ↔
      (get_position env symbol).2.1 = "FLAT") := by
  cases h : env.positionsResult with
  | error e =>
    cases e
    simp [get_position, h]
  | ok l =>
    have hs := get_position_scan_invariant symbol l (hside l h)
    simpa [get_position, h] using hs

/-- Witness for C9 at a held LONG of 1 and at the failure path. -/
theorem get_position_snapshot_invariant_witness :
    ((get_position envLongOne SYMBOL).2.1 = "LONG" ∨
      (get_position envLongOne SYMBOL).2.1 = "SHORT" ∨
      (get_position envLongOne SYMBOL).2.1 = "FLAT") ∧
    0 ≤ (get_position envLongOne SYMBOL).2.2 ∧
    ((get_position envLongOne SYMBOL).2.2 = 0 ↔
      (get_position envLongOne SYMBOL).2.1 = "FLAT") := by
  refine get_position_snapshot_invariant envLongOne SYMBOL ?_
  intro l hl
  have hl' : [(⟨SYMBOL, "long", some 1⟩ : PosEntry)] = l := by
    simpa [envLongOne] using hl
  subst hl'
  intro e he
  simp at he
  subst he
  exact Or.inl rfl

/-- Claim C10: when `WEBHOOK_SECRET` is unset or empty, the webhook skips
the secret comparison entirely — it behaves exactly like its body, never
returns 403, and every request carrying a signal reaches the core
regardless of its secret field. -/
theorem webhook_no_secret_skips_check (secretCfg : Option String)
    (hcfg : secretCfg = none ∨ secretCfg = some "")
    (env : Env) (data : Request) :
    webhook secretCfg env data = webhookBody env data ∧
    (webhook secretCfg env data).2 ≠ WebhookResp.err403 ∧
    (∀ sig, data.signal = some sig →
      (webhook secretCfg env data).1 = (handle_signal env sig).1) := by
  have ht : secretTruthy secretCfg = false := by
    rcases hcfg with h | h <;> subst h <;> decide
  have hw : webhook secretCfg env data = webhookBody env data := by
    simp [webhook, ht]
  refine ⟨hw, ?_, ?_⟩
  · rw [hw]
    cases hd : data.signal with
    | none => simp [webhookBody, hd]
    | some sig =>
      cases hr : (handle_signal env sig).2 with
      | error e => simp [webhookBody, hd, hr]
      | ok u => simp [webhookBody, hd, hr]
  · intro sig hd
    rw [hw]
    cases hr : (handle_signal env sig).2 with
    | error e => simp [webhookBody, hd, hr]
    | ok u => simp [webhookBody, hd, hr]

/-- Witness for C10: unset secret, a request with an arbitrary secret and
signal BUY. -/
theorem webhook_no_secret_skips_check_witness :
    webhook none envFlat ⟨some "anything", some "BUY"⟩ =
      webhookBody envFlat ⟨some "anything", some "BUY"⟩ ∧
    (webhook none envFlat ⟨some "anything", some "BUY"⟩).2 ≠
      WebhookResp.err403 ∧
    (∀ sig, (⟨some "anything", some "BUY"⟩ : Request).signal = some sig →
      (webhook none envFlat ⟨some "anything", some "BUY"⟩).1 =
        (handle_signal envFlat sig).1) :=
  webhook_no_secret_skips_check none (Or.inl rfl) envFlat
    ⟨some "anything", some "BUY"⟩
